import Mathlib

/-!
Verification of the AI-hug video generator's core logic: the side-by-side
image compositor, the fixed-interval job-polling client, and the workflow
state machine of the single-page application, modelled shallowly from the
TypeScript source.
-/

namespace AIHug

/-- The normalized uploaded-image record (types.ts). -/
structure UploadedImage where
  base64 : String
  mimeType : String
  dataUrl : String
  deriving DecidableEq

/-- Pixel dimensions of a decoded image, as read off a loaded Image element. -/
structure PixelImage where
  width : Nat
  height : Nat
  deriving DecidableEq

/-- Which of the two source images a draw command targets. -/
inductive ImageSlot where
  | left
  | right
  deriving DecidableEq

/-- One 2d-context draw command issued by the compositor, with exact
rational coordinates. -/
inductive CanvasOp where
  | fillRect (fillStyle : String) (x y w h : Rat)
  | drawImage (source : ImageSlot) (x y w h : Rat)
  deriving DecidableEq

/-- The composite canvas produced by `combineImages`: its dimensions, the
draw commands applied to it, and the encoding parameters passed to
`toDataURL`. -/
structure CompositeCanvas where
  width : Rat
  height : Rat
  ops : List CanvasOp
  encodeMimeType : String
  encodeQuality : Rat
  deriving DecidableEq

/-- The fixed canonical height of the composite frame (App.tsx, `targetHeight`). -/
def targetHeight : Rat := 720

/-- Shallow embedding of `combineImages` (App.tsx): scale each image to the
canonical height preserving aspect, place them side by side on a canvas of
the summed scaled widths, fill black, draw left at x = 0 and right at
x = left scaled width, and encode as JPEG at quality 0.9. -/
def combineImages (leftImage rightImage : PixelImage) : CompositeCanvas :=
  let leftAspect : Rat := (leftImage.width : Rat) / (leftImage.height : Rat)
  let rightAspect : Rat := (rightImage.width : Rat) / (rightImage.height : Rat)
  let leftScaledWidth : Rat := targetHeight * leftAspect
  let rightScaledWidth : Rat := targetHeight * rightAspect
  { width := leftScaledWidth + rightScaledWidth
    height := targetHeight
    ops := [CanvasOp.fillRect ("#000000") 0 0 (leftScaledWidth + rightScaledWidth) targetHeight,
            CanvasOp.drawImage ImageSlot.left 0 0 leftScaledWidth targetHeight,
            CanvasOp.drawImage ImageSlot.right leftScaledWidth 0 rightScaledWidth targetHeight]
    encodeMimeType := ("image/jpeg")
    encodeQuality := 9 / 10 }

/-- Observable state of one remote video-generation operation: its done flag
and the optional download locator (`response?.generatedVideos?.[0]?.video?.uri`
flattened). -/
structure OpStatus where
  done : Bool
  downloadLink : Option String
  deriving DecidableEq

/-- The fixed delay, in milliseconds, between consecutive status polls
(geminiService.ts, the `setTimeout(resolve, 10000)` in `pollOperation`). -/
def pollIntervalMs : Nat := 10000

/-- Shallow embedding of the `while (!result.done)` loop of `pollOperation`
(geminiService.ts). `updates k` is the status returned by the (k+1)-th
`getVideosOperation` call; `fuel` bounds the number of loop iterations so the
model stays total (`none` means the loop did not finish within `fuel` polls).
The returned list records each wait performed, in order, by its duration. -/
def pollLoop (updates : Nat → OpStatus) : Nat → OpStatus → Nat → Option (List Nat × OpStatus)
  | 0, result, _ => if result.done then some ([], result) else none
  | fuel + 1, result, i =>
    if result.done then some ([], result)
    else
      match pollLoop updates fuel (updates i) (i + 1) with
      | none => none
      | some (waits, final) => some (pollIntervalMs :: waits, final)

/-- `pollOperation` applied to the initial operation object returned by the
submit call: poll statuses until `done`, waiting `pollIntervalMs` before each
status query. -/
def pollOperation (initial : OpStatus) (updates : Nat → OpStatus) (fuel : Nat) :
    Option (List Nat × OpStatus) :=
  pollLoop updates fuel initial 0

/-- The sequence of job statuses the polling loop observes: poll 0 sees the
initial operation object, poll k+1 sees the result of the k-th status query. -/
def statusSeq (initial : OpStatus) (updates : Nat → OpStatus) : Nat → OpStatus
  | 0 => initial
  | k + 1 => updates k

/-- Outcome of the `fetch(downloadLink)` call in `generateHuggingVideo`. -/
inductive FetchResult where
  | ok (objectUrl : String)
  | httpError (statusText : String)
  deriving DecidableEq

/-- The mocked remote environment one run of `generateHuggingVideo` interacts
with: the submit response, the successive status-query responses, the fetch
behavior per link, and the poll fuel bound. -/
structure GenEnv where
  initial : OpStatus
  updates : Nat → OpStatus
  fetchResult : String → FetchResult
  fuel : Nat

/-- The wrapper the `catch` block of `generateHuggingVideo` puts around any
thrown error message. -/
def serviceErrorMessage (msg : String) : String :=
  ("An error occurred with the AI service: ") ++ msg

/-- Message thrown when the completed operation carries no download link. -/
def noDownloadLinkMessage : String :=
  ("Video generation failed: no download link provided.")

/-- Message thrown when the video download responds non-ok. -/
def downloadFailureMessage (statusText : String) : String :=
  ("Failed to download video: ") ++ statusText

/-- Shallow embedding of `generateHuggingVideo` (geminiService.ts) after job
submission: poll to completion, extract the download link, fetch the video.
Returns `none` when polling exhausts its fuel (the loop never observed
`done`); otherwise the first component is the resolved object URL or the
wrapped error message, and the second records whether a download fetch was
attempted. -/
def generateHuggingVideo (env : GenEnv) : Option (Except String String × Bool) :=
  match pollOperation env.initial env.updates env.fuel with
  | none => none
  | some (_, finalOperation) =>
    match finalOperation.downloadLink with
    | none => some (Except.error (serviceErrorMessage noDownloadLinkMessage), false)
    | some link =>
      match env.fetchResult link with
      | FetchResult.ok objectUrl => some (Except.ok objectUrl, true)
      | FetchResult.httpError st =>
        some (Except.error (serviceErrorMessage (downloadFailureMessage st)), true)

/-- The fixed ordered set of rotating progress messages (App.tsx). -/
def loadingMessages : List String :=
  [("Warming up the digital actors..."),
   ("Choreographing the embrace..."),
   ("Setting the scene for the animation..."),
   ("Rendering the initial frames..."),
   ("This can take a few minutes, please be patient."),
   ("AI is composing the video sequence..."),
   ("Almost there, adding the final touches...")]

/-- The fixed period, in milliseconds, of the progress-message ticker
(App.tsx, the `setInterval(..., 3000)`). -/
def tickerIntervalMs : Nat := 3000

/-- One tick of the progress-message interval: JS computes
`indexOf(prev)` (-1 when absent), advances by one modulo the list length,
and reads the message at that index. -/
def tickMessage (prev : String) : String :=
  let currentIndex : Int :=
    match loadingMessages.findIdx? (fun m => m == prev) with
    | some i => (i : Int)
    | none => -1
  let nextIndex : Int := (currentIndex + 1) % (loadingMessages.length : Int)
  loadingMessages.getD nextIndex.toNat ("")

/-- The error surfaced by `handleGenerateVideo` when an input slot is empty. -/
def missingInputMessage : String :=
  ("Please upload both images before generating.")

/-- The React state of the `App` component, plus whether the
progress-message interval is currently installed (`intervalRef.current`
non-null). -/
structure AppState where
  leftImage : Option UploadedImage
  rightImage : Option UploadedImage
  generatedVideoUrl : Option String
  isLoading : Bool
  loadingMessage : String
  error : Option String
  intervalActive : Bool
  deriving DecidableEq

/-- The initial `App` state: no images, no video, not loading, first
progress message, no error, no ticker installed. -/
def initialState : AppState :=
  { leftImage := none
    rightImage := none
    generatedVideoUrl := none
    isLoading := false
    loadingMessage := loadingMessages.getD 0 ("")
    error := none
    intervalActive := false }

/-- An invocation of one of the two heavyweight collaborators during a
generation attempt. -/
inductive Call where
  | compositor
  | generator
  deriving DecidableEq

/-- How one generation attempt resolves: `combineImages` rejects,
`generateHuggingVideo` rejects, or the awaited video URL arrives. The
string carries the thrown error's message, as read by the catch block. -/
inductive AttemptResult where
  | composeFail (msg : String)
  | generateFail (msg : String)
  | success (url : String)
  deriving DecidableEq

/-- The state update performed by the try/catch/finally tail of
`handleGenerateVideo` once the in-flight attempt resolves: on success the
video URL is stored, on either failure the error message is stored, and
`finally` always clears the loading flag. -/
def settleUpdate (s : AppState) (r : AttemptResult) : AppState :=
  match r with
  | AttemptResult.composeFail msg => { s with error := some msg, isLoading := false }
  | AttemptResult.generateFail msg => { s with error := some msg, isLoading := false }
  | AttemptResult.success url =>
    { s with generatedVideoUrl := some url, isLoading := false }

/-- Big-step model of one call to `handleGenerateVideo` (App.tsx),
parameterized by how its awaited collaborators resolve: the missing-input
guard returns early, otherwise the previous error and video URL are cleared,
loading is set, and the attempt settles per `settleUpdate`. The second
component lists which collaborators the call invoked. -/
def handleGenerateVideo (s : AppState) (r : AttemptResult) : AppState × List Call :=
  if s.leftImage.isNone || s.rightImage.isNone then
    ({ s with error := some missingInputMessage }, [])
  else
    let started := { s with isLoading := true, error := none, generatedVideoUrl := none }
    (settleUpdate started r,
      match r with
      | AttemptResult.composeFail _ => [Call.compositor]
      | AttemptResult.generateFail _ => [Call.compositor, Call.generator]
      | AttemptResult.success _ => [Call.compositor, Call.generator])

/-- Whether the upload/generate panel is rendered (App.tsx renders it only
when there is no generated video and the app is not loading). -/
def uploadersShown (s : AppState) : Bool :=
  s.generatedVideoUrl.isNone && !s.isLoading

/-- Whether the Generate Video button can actually be clicked: it is
rendered (no video, not loading) and not disabled
(`!leftImage || !rightImage || isLoading`). -/
def buttonClickable (s : AppState) : Bool :=
  (s.generatedVideoUrl.isNone && !s.isLoading) &&
    !(s.leftImage.isNone || s.rightImage.isNone || s.isLoading)

/-- The `useEffect` on `isLoading`: after a state change flushes, the
interval is installed exactly when the app is loading and cleared
otherwise. -/
def syncTicker (s : AppState) : AppState :=
  { s with intervalActive := s.isLoading }

/-- The externally observable events of the application. -/
inductive Event where
  | setLeft (img : Option UploadedImage)
  | setRight (img : Option UploadedImage)
  | submit
  | settle (r : AttemptResult)
  | tick
  | dismissError
  | createAnother
  deriving DecidableEq

/-- Small-step transition function of the `App` component. `setLeft` and
`setRight` are the uploader callbacks (only reachable while the panel is
rendered); `submit` is a click on the Generate Video button, which starts
compositing after clearing error and video; `settle` is the resolution of
the in-flight attempt; `tick` is one firing of the progress interval;
`dismissError` and `createAnother` are the two recovery buttons. The list
records collaborator invocations the event triggers. -/
def step (s : AppState) : Event → AppState × List Call
  | Event.setLeft img =>
    if uploadersShown s then ({ s with leftImage := img }, []) else (s, [])
  | Event.setRight img =>
    if uploadersShown s then ({ s with rightImage := img }, []) else (s, [])
  | Event.submit =>
    if buttonClickable s then
      if s.leftImage.isNone || s.rightImage.isNone then
        ({ s with error := some missingInputMessage }, [])
      else
        (syncTicker { s with isLoading := true, error := none, generatedVideoUrl := none },
          [Call.compositor])
    else (s, [])
  | Event.settle r =>
    if s.isLoading then
      (syncTicker (settleUpdate s r),
        match r with
        | AttemptResult.composeFail _ => []
        | AttemptResult.generateFail _ => [Call.generator]
        | AttemptResult.success _ => [Call.generator])
    else (s, [])
  | Event.tick =>
    if s.intervalActive then
      ({ s with loadingMessage := tickMessage s.loadingMessage }, [])
    else (s, [])
  | Event.dismissError =>
    if s.error.isSome then ({ s with error := none }, []) else (s, [])
  | Event.createAnother =>
    if s.generatedVideoUrl.isSome then
      ({ s with
          generatedVideoUrl := none
          leftImage := none
          rightImage := none
          error := none }, [])
    else (s, [])

/-- A file handed to an upload slot: its declared MIME type and the outcome
of reading it (`some dataUrl` when the FileReader succeeds, `none` when the
read errors). -/
structure FileInput where
  declaredType : String
  readResult : Option String
  deriving DecidableEq

/-- Local state of one `ImageUploader` slot. -/
structure SlotState where
  preview : Option String
  error : Option String
  deriving DecidableEq

/-- The `file.type.startsWith('image/')` check of `handleFileChange`,
written at the character level: a string starts with the prefix `image/`
exactly when its first six characters are those of `image/`. -/
def declaresImageType (t : String) : Bool :=
  t.toList.take (("image/").toList.length) == ("image/").toList

/-- The slot-local error shown for a file whose declared type is not an
image. -/
def invalidImageMessage : String :=
  ("Please upload a valid image file (PNG, JPG, etc.).")

/-- The slot-local error shown when the byte read fails. -/
def readFailureMessage : String :=
  ("Failed to read the file.")

/-- Shallow embedding of `handleFileChange` (ImageUploader.tsx): no file
clears the preview and reports no image; a non-image declared type sets
the slot error and reports no image; otherwise the error is cleared and
the read either yields the uploaded record or sets the read-failure error.
The second component is the value passed to `onImageUpload`. -/
def handleFileChange (slot : SlotState) (file : Option FileInput) :
    SlotState × Option UploadedImage :=
  match file with
  | none => ({ slot with preview := none }, none)
  | some f =>
    if declaresImageType f.declaredType = false then
      ({ slot with error := some invalidImageMessage, preview := none }, none)
    else
      let slot1 := { slot with error := none }
      match f.readResult with
      | some dataUrl =>
        ({ slot1 with preview := some dataUrl },
          some { base64 := (dataUrl.splitOn (",")).getD 1 ("")
                 mimeType := f.declaredType
                 dataUrl := dataUrl })
      | none => ({ slot1 with error := some readFailureMessage }, none)

/-- A sample uploaded image record used by concrete witnesses. -/
def sampleImage : UploadedImage :=
  { base64 := ("Zm9v"), mimeType := ("image/png"), dataUrl := ("data:image/png;base64,Zm9v") }

/-- A state in the middle of a generation attempt: both inputs present,
loading, ticker installed, first progress message showing. -/
def loadingState : AppState :=
  { initialState with
      leftImage := some sampleImage
      rightImage := some sampleImage
      isLoading := true
      intervalActive := true }

/-- A pending job status, used by concrete witnesses. -/
def sampleStatusPending : OpStatus := { done := false, downloadLink := none }

/-- A completed job status carrying a download link, used by concrete
witnesses. -/
def sampleStatusDone : OpStatus :=
  { done := true, downloadLink := some ("https://example.com/video") }

/-- A status-query sequence that reports pending once and then done, used
by concrete witnesses. -/
def sampleUpdates : Nat → OpStatus :=
  fun k => if k = 0 then sampleStatusPending else sampleStatusDone

/-- A remote environment whose job completes immediately but never supplies
a download link. -/
def noLinkEnv : GenEnv :=
  { initial := { done := true, downloadLink := none }
    updates := fun _ => { done := true, downloadLink := none }
    fetchResult := fun _ => FetchResult.ok ("blob:video")
    fuel := 0 }

/-- A state with only the right image uploaded, used by concrete witnesses. -/
def missingLeftState : AppState :=
  { initialState with rightImage := some sampleImage }

/-- A fresh uploader slot. -/
def plainSlot : SlotState := { preview := none, error := none }

/-- A file whose declared type is not an image. -/
def textFile : FileInput :=
  { declaredType := ("text/plain"), readResult := some ("hello") }

/-- An image file whose byte read fails. -/
def unreadableImage : FileInput :=
  { declaredType := ("image/png"), readResult := none }

/-- If both input slots hold images, the missing-input guard condition of
`handleGenerateVideo` is false. -/
theorem inputs_present_cond (s : AppState) (hl : s.leftImage.isSome = true)
    (hr : s.rightImage.isSome = true) :
    (s.leftImage.isNone || s.rightImage.isNone) = false := by
  cases hL : s.leftImage <;> cases hR : s.rightImage <;> simp_all

/-- Advancing the ticker from the message at index `i` lands on the message
at index `(i + 1) mod length`, for every index of the message list. -/
theorem tickMessage_getD (i : Nat) (hi : i < loadingMessages.length) :
    tickMessage (loadingMessages.getD i ("")) =
      loadingMessages.getD ((i + 1) % loadingMessages.length) ("") := by
  revert i
  decide

/-- The polling loop, started at index `i` on a status stream whose suffix
reports not-done `N` times and then done, performs exactly `N` waits of the
fixed interval and returns the first done status. -/
theorem pollLoop_replicate (updates : Nat → OpStatus) (seq : Nat → OpStatus)
    (hseq : ∀ k, seq (k + 1) = updates k) :
    ∀ N i fuel, N ≤ fuel →
      (∀ k, i ≤ k → k < i + N → (seq k).done = false) →
      (seq (i + N)).done = true →
      pollLoop updates fuel (seq i) i
        = some (List.replicate N pollIntervalMs, seq (i + N)) := by
  intro N
  induction N with
  | zero =>
    intro i fuel _ _ hdone
    rw [Nat.add_zero] at hdone
    cases fuel with
    | zero => simp [pollLoop, hdone]
    | succ f => simp [pollLoop, hdone]
  | succ N ih =>
    intro i fuel hfuel hfalse hdone
    have hnd : (seq i).done = false := hfalse i (Nat.le_refl i) (by omega)
    obtain ⟨f, rfl⟩ : ∃ f, fuel = f + 1 := ⟨fuel - 1, by omega⟩
    have hdone2 : (seq (i + 1 + N)).done = true := by
      have hidx : i + 1 + N = i + (N + 1) := by omega
      rw [hidx]
      exact hdone
    have hrec := ih (i + 1) f (by omega)
      (fun k hk1 hk2 => hfalse k (by omega) (by omega)) hdone2
    simp only [pollLoop, hnd, Bool.false_eq_true, if_false]
    rw [← hseq i, hrec]
    have hidx : i + 1 + N = i + (N + 1) := by omega
    rw [hidx]
    simp [List.replicate_succ]

/-- C1: for every pair of decoded input images, the composite frame has
height exactly 720 and width exactly 720 times the first aspect ratio plus
720 times the second. -/
theorem composite_dimensions (leftImage rightImage : PixelImage)
    (_h1 : 0 < leftImage.height) (_h2 : 0 < rightImage.height) :
    (combineImages leftImage rightImage).height = 720 ∧
    (combineImages leftImage rightImage).width =
      720 * ((leftImage.width : Rat) / (leftImage.height : Rat)) +
      720 * ((rightImage.width : Rat) / (rightImage.height : Rat)) :=
  ⟨rfl, rfl⟩

/-- Two 100-by-100 images yield a 1440-by-720 composite. -/
theorem composite_dimensions_witness :
    (combineImages { width := 100, height := 100 } { width := 100, height := 100 }).height
      = 720 ∧
    (combineImages { width := 100, height := 100 } { width := 100, height := 100 }).width
      = 1440 := by
  have h := composite_dimensions { width := 100, height := 100 }
    { width := 100, height := 100 } (by decide) (by decide)
  refine ⟨h.1, ?_⟩
  rw [h.2]
  norm_num

/-- C2: a job whose observed status is not-done on the first `N` polls and
done on poll `N + 1` incurs exactly `N` waits, each of the fixed 10000 ms
interval with no backoff, before polling returns and retrieval can begin. -/
theorem poll_wait_count (initial : OpStatus) (updates : Nat → OpStatus) (N fuel : Nat)
    (hfuel : N ≤ fuel)
    (hnotdone : ∀ k, k < N → (statusSeq initial updates k).done = false)
    (hdone : (statusSeq initial updates N).done = true) :
    pollOperation initial updates fuel
      = some (List.replicate N pollIntervalMs, statusSeq initial updates N) ∧
    pollIntervalMs = 10000 := by
  refine ⟨?_, rfl⟩
  have h := pollLoop_replicate updates (statusSeq initial updates)
    (fun k => rfl) N 0 fuel hfuel
    (fun k hk1 hk2 => hnotdone k (by omega)) (by simpa using hdone)
  simpa [pollOperation] using h

/-- A job pending on the first two polls and done on the third incurs
exactly two 10-second waits. -/
theorem poll_wait_count_witness :
    pollOperation sampleStatusPending sampleUpdates 5
      = some (List.replicate 2 pollIntervalMs, statusSeq sampleStatusPending sampleUpdates 2) ∧
    pollIntervalMs = 10000 :=
  poll_wait_count sampleStatusPending sampleUpdates 2 5 (by decide) (by decide) (by decide)

/-- C3: while a generation attempt is in flight (the loading flag is set,
covering both the compositing and generating phases), a submit is rejected:
the state is unchanged and no collaborator is invoked. -/
theorem submit_rejected_while_busy (s : AppState) (hload : s.isLoading = true) :
    step s Event.submit = (s, []) := by
  simp [step, buttonClickable, hload]

/-- A submit during an in-flight attempt leaves the loading state untouched. -/
theorem submit_rejected_while_busy_witness :
    step loadingState Event.submit = (loadingState, []) :=
  submit_rejected_while_busy loadingState (by decide)

/-- C4: a submit with either input slot empty returns before invoking any
collaborator, changing nothing but the surfaced missing-input error. -/
theorem submit_missing_input (s : AppState) (r : AttemptResult)
    (hmiss : (s.leftImage.isNone || s.rightImage.isNone) = true) :
    handleGenerateVideo s r = ({ s with error := some missingInputMessage }, []) := by
  simp [handleGenerateVideo, hmiss]

/-- A submit with the left slot empty surfaces the missing-input error and
invokes nothing, whatever the collaborators would have returned. -/
theorem submit_missing_input_witness :
    handleGenerateVideo missingLeftState (AttemptResult.success ("blob:video"))
      = ({ missingLeftState with error := some missingInputMessage }, []) :=
  submit_missing_input missingLeftState (AttemptResult.success ("blob:video")) (by decide)

/-- C5: when the completed job response has no result locator, generation
fails without attempting a download, and settling the attempt with that
error leaves the workflow failed (error shown, loading cleared) with a
message indicating no download link was provided. -/
theorem no_result_locator_fails (env : GenEnv) (waits : List Nat) (final : OpStatus)
    (s : AppState)
    (hpoll : pollOperation env.initial env.updates env.fuel = some (waits, final))
    (hnolink : final.downloadLink = none)
    (hloading : s.isLoading = true) :
    generateHuggingVideo env
      = some (Except.error (serviceErrorMessage noDownloadLinkMessage), false) ∧
    (step s (Event.settle (AttemptResult.generateFail
        (serviceErrorMessage noDownloadLinkMessage)))).1.error
      = some (serviceErrorMessage noDownloadLinkMessage) ∧
    (step s (Event.settle (AttemptResult.generateFail
        (serviceErrorMessage noDownloadLinkMessage)))).1.isLoading = false ∧
    serviceErrorMessage noDownloadLinkMessage
      = ("An error occurred with the AI service: Video generation failed: no download link provided.") := by
  refine ⟨?_, ?_, ?_, rfl⟩
  · simp [generateHuggingVideo, hpoll, hnolink]
  · simp [step, hloading, settleUpdate, syncTicker]
  · simp [step, hloading, settleUpdate, syncTicker]

/-- A job that completes immediately with no locator makes generation fail
with the no-download-link message, fetch never attempted, and the workflow
failed. -/
theorem no_result_locator_fails_witness :
    generateHuggingVideo noLinkEnv
      = some (Except.error (serviceErrorMessage noDownloadLinkMessage), false) ∧
    (step loadingState (Event.settle (AttemptResult.generateFail
        (serviceErrorMessage noDownloadLinkMessage)))).1.error
      = some (serviceErrorMessage noDownloadLinkMessage) ∧
    (step loadingState (Event.settle (AttemptResult.generateFail
        (serviceErrorMessage noDownloadLinkMessage)))).1.isLoading = false ∧
    serviceErrorMessage noDownloadLinkMessage
      = ("An error occurred with the AI service: Video generation failed: no download link provided.") :=
  no_result_locator_fails noLinkEnv [] { done := true, downloadLink := none }
    loadingState (by decide) (by decide) (by decide)

/-- C6: the progress ticker fires every 3000 ms; while installed, each tick
advances the message from index i to index (i + 1) mod 7, wrapping past the
last message; settling the in-flight attempt uninstalls the ticker; and
with the ticker uninstalled a tick changes nothing. -/
theorem ticker_behavior :
    tickerIntervalMs = 3000 ∧
    (∀ (s : AppState) (i : Nat), s.intervalActive = true →
      i < loadingMessages.length →
      s.loadingMessage = loadingMessages.getD i ("") →
      (step s Event.tick).1.loadingMessage
        = loadingMessages.getD ((i + 1) % loadingMessages.length) ("")) ∧
    (∀ (s : AppState) (r : AttemptResult), s.isLoading = true →
      (step s (Event.settle r)).1.intervalActive = false) ∧
    (∀ s : AppState, s.intervalActive = false → step s Event.tick = (s, [])) := by
  refine ⟨rfl, ?_, ?_, ?_⟩
  · intro s i hact hi hmsg
    have hstep : (step s Event.tick).1
        = { s with loadingMessage := tickMessage s.loadingMessage } := by
      simp [step, hact]
    rw [hstep]
    show tickMessage s.loadingMessage
      = loadingMessages.getD ((i + 1) % loadingMessages.length) ("")
    rw [hmsg]
    exact tickMessage_getD i hi
  · intro s r hload
    cases r <;> simp [step, hload, settleUpdate, syncTicker]
  · intro s hact
    simp [step, hact]

/-- From the first message, one tick shows the second message; settling
stops the ticker; with no ticker installed, ticks do nothing. -/
theorem ticker_behavior_witness :
    tickerIntervalMs = 3000 ∧
    (step loadingState Event.tick).1.loadingMessage = loadingMessages.getD 1 ("") ∧
    (step loadingState (Event.settle (AttemptResult.success ("blob:video")))).1.intervalActive
      = false ∧
    step initialState Event.tick = (initialState, []) := by
  refine ⟨ticker_behavior.1, ?_,
    ticker_behavior.2.2.1 loadingState (AttemptResult.success ("blob:video")) (by decide),
    ticker_behavior.2.2.2 initialState (by decide)⟩
  have h := ticker_behavior.2.1 loadingState 0 (by decide) (by decide) (by decide)
  simpa using h

/-- C7: the compositor fills the whole canvas with opaque black, draws the
left image at x = 0 and the right image immediately adjacent at x = the
left scaled width, both at the canvas height, and encodes the canvas as a
JPEG at quality 0.9. -/
theorem compositor_draw_plan (leftImage rightImage : PixelImage) :
    (combineImages leftImage rightImage).ops =
      [CanvasOp.fillRect ("#000000") 0 0 (combineImages leftImage rightImage).width
         (combineImages leftImage rightImage).height,
       CanvasOp.drawImage ImageSlot.left 0 0
         (targetHeight * ((leftImage.width : Rat) / (leftImage.height : Rat)))
         (combineImages leftImage rightImage).height,
       CanvasOp.drawImage ImageSlot.right
         (targetHeight * ((leftImage.width : Rat) / (leftImage.height : Rat))) 0
         (targetHeight * ((rightImage.width : Rat) / (rightImage.height : Rat)))
         (combineImages leftImage rightImage).height] ∧
    (combineImages leftImage rightImage).encodeMimeType = ("image/jpeg") ∧
    (combineImages leftImage rightImage).encodeQuality = 9 / 10 :=
  ⟨rfl, rfl, rfl⟩

/-- C8: a non-image file sets only the slot-local invalid-image error and
reports no uploaded image; a failed byte read sets only the slot-local
read-failure error and reports no uploaded image; and uploader events never
change the workflow's error field, so decode problems never produce a
failed workflow state. -/
theorem decode_errors_stay_local (slot : SlotState) (f g : FileInput) (s : AppState)
    (img : Option UploadedImage)
    (hf : declaresImageType f.declaredType = false)
    (hg1 : declaresImageType g.declaredType = true)
    (hg2 : g.readResult = none) :
    (handleFileChange slot (some f)).1.error = some invalidImageMessage ∧
    (handleFileChange slot (some f)).2 = none ∧
    (handleFileChange slot (some g)).1.error = some readFailureMessage ∧
    (handleFileChange slot (some g)).2 = none ∧
    (step s (Event.setLeft img)).1.error = s.error ∧
    (step s (Event.setRight img)).1.error = s.error := by
  refine ⟨?_, ?_, ?_, ?_, ?_, ?_⟩
  · simp [handleFileChange, hf]
  · simp [handleFileChange, hf]
  · simp [handleFileChange, hg1, hg2]
  · simp [handleFileChange, hg1, hg2]
  · by_cases h : uploadersShown s <;> simp [step, h]
  · by_cases h : uploadersShown s <;> simp [step, h]

/-- A text file triggers only the slot-local invalid-image message, an
unreadable image only the slot-local read-failure message, and clearing an
upload slot leaves the workflow error untouched. -/
theorem decode_errors_stay_local_witness :
    (handleFileChange plainSlot (some textFile)).1.error = some invalidImageMessage ∧
    (handleFileChange plainSlot (some textFile)).2 = none ∧
    (handleFileChange plainSlot (some unreadableImage)).1.error = some readFailureMessage ∧
    (handleFileChange plainSlot (some unreadableImage)).2 = none ∧
    (step initialState (Event.setLeft none)).1.error = initialState.error ∧
    (step initialState (Event.setRight none)).1.error = initialState.error :=
  decode_errors_stay_local plainSlot textFile unreadableImage initialState none
    (by decide) (by decide) (by decide)

/-- C9: every attempt that begins clears the stale error and video before
compositing, so a failed attempt exposes no video, and the video is set,
with no error, exactly on success. -/
theorem failed_attempt_shows_no_video (s : AppState) (r : AttemptResult)
    (hl : s.leftImage.isSome = true) (hr : s.rightImage.isSome = true) :
    ((handleGenerateVideo s r).1.error.isSome = true →
      (handleGenerateVideo s r).1.generatedVideoUrl = none) ∧
    (∀ url : String, r = AttemptResult.success url →
      (handleGenerateVideo s r).1.generatedVideoUrl = some url ∧
      (handleGenerateVideo s r).1.error = none) := by
  have hcond := inputs_present_cond s hl hr
  cases r <;> simp [handleGenerateVideo, hcond, settleUpdate]

/-- A successful attempt exposes the fresh video with no error. -/
theorem failed_attempt_shows_no_video_witness :
    (handleGenerateVideo loadingState (AttemptResult.success ("blob:video"))).1.generatedVideoUrl
      = some ("blob:video") ∧
    (handleGenerateVideo loadingState (AttemptResult.success ("blob:video"))).1.error = none :=
  (failed_attempt_shows_no_video loadingState (AttemptResult.success ("blob:video"))
    (by decide) (by decide)).2 ("blob:video") rfl

/-- C10: every attempt that begins ends with the loading flag cleared on
all three exit paths, so the workflow never stays stuck busy. -/
theorem attempt_always_clears_loading (s : AppState) (r : AttemptResult)
    (hl : s.leftImage.isSome = true) (hr : s.rightImage.isSome = true) :
    (handleGenerateVideo s r).1.isLoading = false := by
  have hcond := inputs_present_cond s hl hr
  cases r <;> simp [handleGenerateVideo, hcond, settleUpdate]

/-- A compose failure still clears the loading flag. -/
theorem attempt_always_clears_loading_witness :
    (handleGenerateVideo loadingState
      (AttemptResult.composeFail ("Failed to load left image."))).1.isLoading = false :=
  attempt_always_clears_loading loadingState
    (AttemptResult.composeFail ("Failed to load left image.")) (by decide) (by decide)

end AIHug
